import Mathlib

/-!
Verification development for the `permonitor` web-performance-monitor
repository.  Numeric configuration values and durations are embedded as
rationals (`ℚ`), machine timestamps as rationals, and Python dictionaries
as association lists.  `Config` and its `validate` pipeline are translated
from `src/web_performance_monitor/config.py`; the event model, alert
cache, notification channels, dispatcher and monitor facade are modelled
from the specification because their modules are not part of the source
tree (only their tests and callers are).
-/

namespace PerMonitor

/-! ## Configuration (`src/web_performance_monitor/config.py`) -/

/-- Translation of the `Config` dataclass fields (config.py lines 16-40).
Python floats become `ℚ`, ints become `ℤ`, strings and booleans keep their
types. -/
structure Config where
  threshold_seconds : ℚ
  alert_window_days : ℤ
  max_performance_overhead : ℚ
  enable_local_file : Bool
  local_output_dir : String
  enable_mattermost : Bool
  mattermost_server_url : String
  mattermost_token : String
  mattermost_channel_id : String
  mattermost_max_retries : ℤ
  log_level : String
deriving Repr, DecidableEq

/-- Default field values of the `Config` dataclass (config.py lines 24-40). -/
def defaultConfig : Config :=
  { threshold_seconds := 1
    alert_window_days := 10
    max_performance_overhead := 1/20
    enable_local_file := true
    local_output_dir := "/tmp"
    enable_mattermost := false
    mattermost_server_url := ""
    mattermost_token := ""
    mattermost_channel_id := ""
    mattermost_max_retries := 3
    log_level := "INFO" }

/-- Modelled from the spec: `utils.validate_threshold` is imported by
config.py but `utils.py` is not in the source tree.  The spec treats the
threshold as a positive duration, and the repository's test
`test_validate_invalid_threshold` shows that `-1.0` is rejected (the
caller then falls back to the default).  Rejection is modelled as `none`,
acceptance returns the value. -/
def validate_threshold (t : ℚ) : Option ℚ :=
  if 0 < t then some t else none

/-- Modelled from the spec: `utils.validate_window_days` is imported by
config.py but `utils.py` is not in the source tree.  The alert window is a
positive number of days; the repository's test
`test_validate_invalid_window_days` shows that `-5` is rejected. -/
def validate_window_days (n : ℤ) : Option ℤ :=
  if 0 < n then some n else none

/-- Threshold validation step of `Config.validate` (config.py lines
146-151): an invalid threshold is replaced by the default `1.0` and only a
warning is logged. -/
def validateThresholdStep (c : Config) : Config :=
  match validate_threshold c.threshold_seconds with
  | some t => { c with threshold_seconds := t }
  | none => { c with threshold_seconds := 1 }

/-- Window validation step of `Config.validate` (config.py lines 153-158):
an invalid window is replaced by the default `10` days. -/
def validateWindowStep (c : Config) : Config :=
  match validate_window_days c.alert_window_days with
  | some n => { c with alert_window_days := n }
  | none => { c with alert_window_days := 10 }

/-- Overhead validation step of `Config.validate` (config.py lines
160-163): out-of-range overhead is replaced by the default `0.05`. -/
def validateOverheadStep (c : Config) : Config :=
  if 0 < c.max_performance_overhead ∧ c.max_performance_overhead ≤ 1 then c
  else { c with max_performance_overhead := 1/20 }

/-- Retry-count validation step of `Config.validate` (config.py lines
165-168): a negative retry count is replaced by the default `3`. -/
def validateRetriesStep (c : Config) : Config :=
  if 0 ≤ c.mattermost_max_retries then c
  else { c with mattermost_max_retries := 3 }

/-- Output-directory validation step of `Config.validate` (config.py lines
170-173): an empty directory with local file output enabled becomes
`/tmp`. -/
def validateOutputDirStep (c : Config) : Config :=
  if c.enable_local_file = true ∧ c.local_output_dir = "" then
    { c with local_output_dir := "/tmp" }
  else c

/-- Mattermost validation step of `Config.validate` (config.py lines
175-187): if Mattermost is enabled but any of the server URL, token or
channel id is empty, the channel is force-disabled. -/
def validateMattermostStep (c : Config) : Config :=
  if c.enable_mattermost = true ∧
      (c.mattermost_server_url = "" ∨ c.mattermost_token = "" ∨
        c.mattermost_channel_id = "") then
    { c with enable_mattermost := false }
  else c

/-- Log-level validation step of `Config.validate` (config.py lines
189-193): an unknown level is replaced by `INFO`. -/
def validateLogLevelStep (c : Config) : Config :=
  if c.log_level.toUpper ∈ ["DEBUG", "INFO", "WARNING", "ERROR", "CRITICAL"] then c
  else { c with log_level := "INFO" }

/-- Final step of `Config.validate` (config.py lines 195-198): if no
notification method is enabled, local file notification is enabled. -/
def ensureNotificationStep (c : Config) : Config :=
  if c.enable_local_file = false ∧ c.enable_mattermost = false then
    { c with enable_local_file := true }
  else c

/-- `Config.validate` (config.py lines 136-198): the validation steps
applied in source order.  Every branch of the source either keeps the
field or replaces it with a default; no branch raises. -/
def Config.validate (c : Config) : Config :=
  ensureNotificationStep
    (validateLogLevelStep
      (validateMattermostStep
        (validateOutputDirStep
          (validateRetriesStep
            (validateOverheadStep
              (validateWindowStep
                (validateThresholdStep c)))))))

/-- Direct construction of a `Config` (`__post_init__`, config.py lines
42-44): the dataclass is built and then `validate` runs.  The error
channel (`Except`) models the possibility of a `ConfigurationError`
escaping to the caller; the body of `validate` never raises, so the
result is always `ok`. -/
def mkConfigE (raw : Config) : Except String Config :=
  Except.ok raw.validate

/-- `Config.from_env` (config.py lines 46-84) restricted to the two
numeric variables the claims are about, with the Python `float`/`int`
parsers abstracted as parameters: a parse failure raises
`ConfigurationError`, a parsed pair is passed to the constructor. -/
def from_env (parseF : String → Option ℚ) (parseI : String → Option ℤ)
    (thStr winStr : String) : Except String Config :=
  match parseF thStr, parseI winStr with
  | some th, some win =>
      mkConfigE { defaultConfig with threshold_seconds := th, alert_window_days := win }
  | _, _ => Except.error "config-error"

/-- Whether an `Except` result is a normal (non-raising) return. -/
def exceptOk {ε α : Type} : Except ε α → Bool
  | Except.ok _ => true
  | Except.error _ => false

/-! ## Event model (modelled from spec §3; `events.py` is absent from the
source tree) -/

/-- Modelled from the spec: a context value of a `PerformanceEvent`.  The
`str` and `num` constructors stand for values that Python's string
coercion handles directly; `malformed` stands for a value whose ordinary
string conversion raises, so the fingerprint computation must fall back to
a best-effort coercion. -/
inductive CtxValue where
  | str (s : String)
  | num (q : ℚ)
  | malformed (tag : String)
deriving Repr, DecidableEq

/-- Modelled from the spec: the ordinary (fallible) string conversion of a
context value; it fails exactly on `malformed` values. -/
def strOfCtx : CtxValue → Except String String
  | CtxValue.str s => Except.ok s
  | CtxValue.num q => Except.ok (toString q)
  | CtxValue.malformed tag => Except.error tag

/-- Modelled from the spec: total best-effort coercion of a context value
to a string — a raising conversion is caught and replaced by a fallback
description, so fingerprinting never raises. -/
def CtxValue.coerce (v : CtxValue) : String :=
  match strOfCtx v with
  | Except.ok s => s
  | Except.error tag => "<unrepresentable:" ++ tag ++ ">"

/-- Lexicographic comparison of character lists, used to sort context
keys. -/
def charListLe : List Char → List Char → Bool
  | [], _ => true
  | _ :: _, [] => false
  | a :: as, b :: bs =>
      if a < b then true else if b < a then false else charListLe as bs

/-- Key order for the normalized projection of the context. -/
def keyLe (a b : String) : Bool :=
  charListLe a.data b.data

/-- Insert a key-value pair into a key-sorted association list (part of
the normalized projection of the context). -/
def insertPair (p : String × CtxValue) :
    List (String × CtxValue) → List (String × CtxValue)
  | [] => [p]
  | q :: rest => if keyLe p.1 q.1 then p :: q :: rest else q :: insertPair p rest

/-- Modelled from the spec: the normalized projection of an event context —
parameters sorted by key, values coerced to strings by the total
best-effort coercion. -/
def normalizeContext (ctx : List (String × CtxValue)) : List (String × String) :=
  (ctx.foldr insertPair []).map (fun p => (p.1, p.2.coerce))

/-- Modelled from the spec: the stable identity string computed from the
endpoint and the normalized context only. -/
def fingerprintOf (endpoint : String) (ctx : List (String × CtxValue)) : String :=
  endpoint ++ "||" ++
    String.intercalate ";" ((normalizeContext ctx).map (fun p => p.1 ++ "=" ++ p.2))

/-- Modelled from the spec: an immutable record of one measured execution
(spec §3).  Timestamps and durations are rationals; `status` is an
optional outcome marker. -/
structure PerformanceEvent where
  endpoint : String
  context : List (String × CtxValue)
  duration_seconds : ℚ
  timestamp : ℚ
  status : Option String

/-- Modelled from the spec: the derived deduplication fingerprint of an
event — computed from `endpoint` and the normalized `context`, not from
`timestamp`, `duration_seconds` or `status`. -/
def PerformanceEvent.fingerprint (e : PerformanceEvent) : String :=
  fingerprintOf e.endpoint e.context

/-- Event constructor used by the instrumentation wrapper model. -/
def mkEvent (endpoint : String) (ctx : List (String × CtxValue))
    (dur ts : ℚ) (st : Option String) : PerformanceEvent :=
  { endpoint := endpoint, context := ctx, duration_seconds := dur,
    timestamp := ts, status := st }

/-! ## Alert cache (modelled from spec §4.1; the cache module is absent
from the source tree) -/

/-- Modelled from the spec: one alert-cache entry — the timestamp of the
alert that created or refreshed the entry, and the occurrence counter for
the current window. -/
structure CacheEntry where
  first_alerted_at : ℚ
  alert_count : ℕ
deriving Repr, DecidableEq

/-- Lookup of a fingerprint in the cache's association list. -/
def findEntry : List (String × CacheEntry) → String → Option CacheEntry
  | [], _ => none
  | (k, e) :: rest, fp => if k = fp then some e else findEntry rest fp

/-- Replace-or-append update of the cache's association list. -/
def setEntry : List (String × CacheEntry) → String → CacheEntry →
    List (String × CacheEntry)
  | [], fp, e => [(fp, e)]
  | (k, e0) :: rest, fp, e =>
      if k = fp then (fp, e) :: rest else (k, e0) :: setEntry rest fp e

/-- Modelled from the spec: the time-windowed, fingerprint-keyed alert
cache.  `window` is the configured alert-window duration. -/
structure AlertCache where
  window : ℚ
  entries : List (String × CacheEntry)

/-- Modelled from the spec (§4.1, §8): the atomic check-and-set of the
alert cache.  An entry is live while `now - first_alerted_at` has not
passed the window; per the at-most-one-per-window property a second
dispatch happens only when the timestamp strictly exceeds
`first_alerted_at + window`, so liveness is `now - first_alerted_at ≤
window`.  A novel or expired fingerprint is marked immediately (entry
created or refreshed in the same operation) and the call returns true; a
live entry only has its occurrence counter incremented and the call
returns false. -/
def should_alert (c : AlertCache) (fp : String) (now : ℚ) : Bool × AlertCache :=
  match findEntry c.entries fp with
  | none =>
      (true, { c with entries := setEntry c.entries fp ⟨now, 1⟩ })
  | some e =>
      if now - e.first_alerted_at ≤ c.window then
        (false,
          { c with entries := setEntry c.entries fp ⟨e.first_alerted_at, e.alert_count + 1⟩ })
      else
        (true, { c with entries := setEntry c.entries fp ⟨now, 1⟩ })

/-- Whether the cache currently holds a live (non-expired) entry for the
fingerprint. -/
def hasLiveEntry (c : AlertCache) (fp : String) (now : ℚ) : Bool :=
  match findEntry c.entries fp with
  | none => false
  | some e => decide (now - e.first_alerted_at ≤ c.window)

/-- Run a sequence of `should_alert` calls for one fingerprint at the
given timestamps and count how many returned true (dispatches). -/
def countAlerts (c : AlertCache) (fp : String) : List ℚ → ℕ
  | [] => 0
  | t :: ts =>
      let r := should_alert c fp t
      (if r.1 then 1 else 0) + countAlerts r.2 fp ts

/-! ## Notification channels (modelled from spec §4.2; the notifier
modules are absent from the source tree) -/

/-- Modelled from the spec: the outcome of a channel's internal send
action before the channel boundary — it either returns a boolean or
raises. -/
inductive SendResult where
  | ok (b : Bool)
  | exn (msg : String)
deriving Repr, DecidableEq

/-- Modelled from the spec: a notification channel — a name, the
`is_enabled` flag set from configuration, and the internal (possibly
raising) send behaviour. -/
structure Channel where
  name : String
  enabled : Bool
  send0 : PerformanceEvent → String → SendResult

/-- Modelled from the spec: the channel boundary around `send` — an
internal failure is caught and converted to a `false` result plus a
recorded error detail; a normal result is passed through with no detail.
The returned pair is the per-channel `NotificationOutcome`. -/
def Channel.send (c : Channel) (e : PerformanceEvent) (body : String) :
    Bool × Option String :=
  match c.send0 e body with
  | SendResult.ok b => (b, none)
  | SendResult.exn m => (false, some m)

/-- Modelled from the spec: the channels actually invoked during fan-out —
exactly the enabled ones; disabled channels are not even attempted. -/
def invokedChannels (cs : List Channel) : List Channel :=
  cs.filter (fun c => c.enabled)

/-- Modelled from the spec: the fan-out of one novel event to all enabled
channels — every enabled channel's `send` is invoked independently and its
outcome recorded under the channel's name in the `notification_status`
mapping. -/
def fanOut (cs : List Channel) (e : PerformanceEvent) (body : String) :
    List (String × (Bool × Option String)) :=
  (invokedChannels cs).map (fun c => (c.name, c.send e body))

/-- Modelled from the spec: the local-file channel constructed from
configuration — its `is_enabled` flag is `enable_local_file`; the
file-writing behaviour is a parameter. -/
def localFileChannel (c : Config) (beh : PerformanceEvent → String → SendResult) :
    Channel :=
  { name := "local_file", enabled := c.enable_local_file, send0 := beh }

/-- Modelled from the spec: the Mattermost chat channel constructed from
configuration — its `is_enabled` flag is `enable_mattermost`; the network
behaviour is a parameter. -/
def mattermostChannel (c : Config) (beh : PerformanceEvent → String → SendResult) :
    Channel :=
  { name := "mattermost", enabled := c.enable_mattermost, send0 := beh }

/-- Modelled from the spec: the channel list the dispatcher constructs
once from configuration. -/
def channelsOf (c : Config) (lbeh mbeh : PerformanceEvent → String → SendResult) :
    List Channel :=
  [localFileChannel c lbeh, mattermostChannel c mbeh]

/-! ## Dispatcher and monitor facade (modelled from spec §4.3-§4.4; the
monitor module is absent from the source tree) -/

/-- Modelled from the spec: the aggregate counters of the monitor
facade. -/
structure Stats where
  total_requests : ℕ
  slow_requests : ℕ
  alerts_sent : ℕ
deriving Repr, DecidableEq

def Stats.incTotal (s : Stats) : Stats :=
  { s with total_requests := s.total_requests + 1 }

def Stats.incSlow (s : Stats) : Stats :=
  { s with slow_requests := s.slow_requests + 1 }

def Stats.incAlerts (s : Stats) : Stats :=
  { s with alerts_sent := s.alerts_sent + 1 }

/-- Modelled from the spec: the monitor facade — configuration threshold,
the alert cache, the dispatcher's channels, the report renderer (an
external collaborator that may raise), the counters, and the enablement
state (`true` = ENABLED, `false` = DISABLED). -/
structure Monitor where
  threshold : ℚ
  cache : AlertCache
  channels : List Channel
  render : PerformanceEvent → Except String String
  stats : Stats
  enabled : Bool

/-- Modelled from the spec (§4.3): `maybe_alert` — consult the cache's
atomic check-and-set with the event's fingerprint and timestamp; a
duplicate returns false with no channel invoked; a novel event renders the
report (the renderer may raise, which propagates to the facade boundary)
and fans out to the enabled channels, the dispatch counting as sent when
at least one channel succeeded.  Returns the outcome together with the
updated cache. -/
def maybe_alertX (m : Monitor) (e : PerformanceEvent) :
    Except String Bool × AlertCache :=
  match should_alert m.cache e.fingerprint e.timestamp with
  | (true, cache') =>
      match m.render e with
      | Except.error err => (Except.error err, cache')
      | Except.ok body =>
          (Except.ok ((fanOut m.channels e body).any (fun p => p.2.1)), cache')
  | (false, cache') => (Except.ok false, cache')

/-- Modelled from the spec (§4.4): the fallible core of `record` —
increment `total_requests`; if the duration exceeds the threshold,
increment `slow_requests` and run `maybe_alert`, incrementing
`alerts_sent` when it dispatched.  The first component carries a
monitoring-internal error if one was raised; the second component is the
state as updated up to that point. -/
def recordX (m : Monitor) (e : PerformanceEvent) : Except String Unit × Monitor :=
  if m.threshold < e.duration_seconds then
    match maybe_alertX { m with stats := m.stats.incTotal.incSlow } e with
    | (Except.error err, cache') =>
        (Except.error err,
          { m with stats := m.stats.incTotal.incSlow, cache := cache' })
    | (Except.ok disp, cache') =>
        (Except.ok (),
          { m with
              cache := cache'
              stats := if disp then m.stats.incTotal.incSlow.incAlerts
                else m.stats.incTotal.incSlow })
  else
    (Except.ok (), { m with stats := m.stats.incTotal })

/-- Modelled from the spec (§4.4, §7): `record` — a no-op while the
monitor is DISABLED; otherwise it runs the fallible core and swallows any
internal error at the facade boundary, returning the state reached, so no
exception ever propagates to the caller. -/
def Monitor.record (m : Monitor) (e : PerformanceEvent) : Monitor :=
  if m.enabled then (recordX m e).2 else m

/-- Modelled from the spec: `enable_monitoring` transitions to ENABLED. -/
def enable_monitoring (m : Monitor) : Monitor :=
  { m with enabled := true }

/-- Modelled from the spec: `disable_monitoring` transitions to
DISABLED. -/
def disable_monitoring (m : Monitor) : Monitor :=
  { m with enabled := false }

/-- Status marker of an event built from a wrapped call's result. -/
def statusOf {ε α : Type} : Except ε α → Option String
  | Except.ok _ => some "success"
  | Except.error _ => some "exception"

/-- Modelled from the spec (§7, §8): the instrumented wrapper around an
opaque unit of work `f` — run it, build the event (the status marks
success or exception), record it, and hand back the work's own result
untouched together with the updated monitor. -/
def monitoredCall {ε α : Type} (m : Monitor) (f : Unit → Except ε α)
    (endpoint : String) (ctx : List (String × CtxValue)) (dur ts : ℚ) :
    Except ε α × Monitor :=
  (f (), m.record (mkEvent endpoint ctx dur ts (statusOf (f ()))))

/-- Fold `record` over a sequence of events — one linearization of
concurrent callers, since the cache's check-and-set is a single atomic
operation. -/
def runRecords (m : Monitor) (es : List PerformanceEvent) : Monitor :=
  es.foldl Monitor.record m

/-! ## Concrete inputs used by the witnesses -/

/-- A channel whose internal send always succeeds. -/
def okChannel : Channel :=
  { name := "local_file", enabled := true, send0 := fun _ _ => SendResult.ok true }

/-- A channel whose internal send always raises. -/
def raisingChannel : Channel :=
  { name := "chat", enabled := true, send0 := fun _ _ => SendResult.exn "io-error" }

/-- A disabled channel. -/
def disabledChannel : Channel :=
  { name := "chat_disabled", enabled := false, send0 := fun _ _ => SendResult.ok true }

/-- A concrete, enabled monitor with an empty cache, a one-unit window, a
0.1-unit threshold, one succeeding channel and a total renderer. -/
def mon0 : Monitor :=
  { threshold := 1/10
    cache := { window := 1, entries := [] }
    channels := [okChannel]
    render := fun _ => Except.ok "report"
    stats := { total_requests := 0, slow_requests := 0, alerts_sent := 0 }
    enabled := true }

/-- A directly constructed configuration with malformed numeric values
(the shape the repository's own tests use: threshold `-1`, window `-5`). -/
def cfgBadNums : Config :=
  { defaultConfig with threshold_seconds := -1, alert_window_days := -5 }

/-- A configuration enabling Mattermost with an empty token and channel
id. -/
def cfgMMIncomplete : Config :=
  { defaultConfig with
      enable_mattermost := true
      mattermost_server_url := "https://mm.example.com" }

/-- A concrete slow event (duration 0.2 over the 0.1 threshold). -/
def evSlow : PerformanceEvent :=
  mkEvent "/x" [("id", CtxValue.num 2)] (1/5) 0 none

/-- An event with a mixed context, including a malformed value. -/
def evCtxA : PerformanceEvent :=
  mkEvent "/x" [("a", CtxValue.str "1"), ("b", CtxValue.malformed "obj")] (1/5) 0 none

/-- The same endpoint and context as `evCtxA` up to key order, with a
different duration, timestamp and status. -/
def evCtxB : PerformanceEvent :=
  mkEvent "/x" [("b", CtxValue.malformed "obj"), ("a", CtxValue.str "1")] 7 99
    (some "success")

/-! ## Step-rewriting lemmas for `Config.validate` -/

theorem validateThresholdStep_eq (c : Config) :
    validateThresholdStep c =
      { c with threshold_seconds :=
          if 0 < c.threshold_seconds then c.threshold_seconds else 1 } := by
  by_cases h : 0 < c.threshold_seconds <;>
    simp [validateThresholdStep, validate_threshold, h]

theorem validateWindowStep_eq (c : Config) :
    validateWindowStep c =
      { c with alert_window_days :=
          if 0 < c.alert_window_days then c.alert_window_days else 10 } := by
  by_cases h : 0 < c.alert_window_days <;>
    simp [validateWindowStep, validate_window_days, h]

theorem validateOverheadStep_eq (c : Config) :
    validateOverheadStep c =
      { c with max_performance_overhead :=
          if 0 < c.max_performance_overhead ∧ c.max_performance_overhead ≤ 1
          then c.max_performance_overhead else 1/20 } := by
  by_cases h : 0 < c.max_performance_overhead ∧ c.max_performance_overhead ≤ 1 <;>
    simp [validateOverheadStep, h]

theorem validateRetriesStep_eq (c : Config) :
    validateRetriesStep c =
      { c with mattermost_max_retries :=
          if 0 ≤ c.mattermost_max_retries then c.mattermost_max_retries else 3 } := by
  by_cases h : 0 ≤ c.mattermost_max_retries <;>
    simp [validateRetriesStep, h]

theorem validateOutputDirStep_eq (c : Config) :
    validateOutputDirStep c =
      { c with local_output_dir :=
          if c.enable_local_file = true ∧ c.local_output_dir = ""
          then "/tmp" else c.local_output_dir } := by
  by_cases h : c.enable_local_file = true ∧ c.local_output_dir = "" <;>
    simp [validateOutputDirStep, h]

theorem validateMattermostStep_eq (c : Config) :
    validateMattermostStep c =
      { c with enable_mattermost :=
          if c.enable_mattermost = true ∧
              (c.mattermost_server_url = "" ∨ c.mattermost_token = "" ∨
                c.mattermost_channel_id = "")
          then false else c.enable_mattermost } := by
  by_cases h : c.enable_mattermost = true ∧
      (c.mattermost_server_url = "" ∨ c.mattermost_token = "" ∨
        c.mattermost_channel_id = "") <;>
    simp [validateMattermostStep, h]

theorem validateLogLevelStep_eq (c : Config) :
    validateLogLevelStep c =
      { c with log_level :=
          if c.log_level.toUpper ∈ ["DEBUG", "INFO", "WARNING", "ERROR", "CRITICAL"]
          then c.log_level else "INFO" } := by
  by_cases h : c.log_level.toUpper ∈ ["DEBUG", "INFO", "WARNING", "ERROR", "CRITICAL"] <;>
    simp [validateLogLevelStep, h]

theorem ensureNotificationStep_eq (c : Config) :
    ensureNotificationStep c =
      { c with enable_local_file :=
          if c.enable_local_file = false ∧ c.enable_mattermost = false
          then true else c.enable_local_file } := by
  by_cases h : c.enable_local_file = false ∧ c.enable_mattermost = false <;>
    simp [ensureNotificationStep, h]

/-! ## Claims about configuration (config.py) -/

/-- C10: every successfully constructed `Config` has at least one
notification method enabled after validation — `enable_local_file` or
`enable_mattermost` is true, even when the caller disabled both or the
incomplete-Mattermost rule disabled the only enabled channel. -/
theorem validated_config_has_notification (c : Config) :
    (Config.validate c).enable_local_file = true ∨
      (Config.validate c).enable_mattermost = true := by
  unfold Config.validate
  rw [ensureNotificationStep_eq]
  set d := validateLogLevelStep
    (validateMattermostStep
      (validateOutputDirStep
        (validateRetriesStep
          (validateOverheadStep
            (validateWindowStep (validateThresholdStep c)))))) with hd
  by_cases h : d.enable_local_file = false ∧ d.enable_mattermost = false
  · left; simp [h]
  · rw [if_neg h]
    cases hl : d.enable_local_file
    · cases hm : d.enable_mattermost
      · exact absurd ⟨hl, hm⟩ h
      · exact Or.inr rfl
    · exact Or.inl rfl

/-- C9: a `Config` constructed with `enable_mattermost` true but at least
one of the server URL, token or channel id empty ends up with
`enable_mattermost` false (force-disabled due to incomplete
configuration), and the disabled channel is excluded from fan-out. -/
theorem incomplete_mattermost_force_disabled (raw : Config)
    (hmm : raw.enable_mattermost = true)
    (hmiss : raw.mattermost_server_url = "" ∨ raw.mattermost_token = "" ∨
      raw.mattermost_channel_id = "") :
    (Config.validate raw).enable_mattermost = false ∧
      ∀ (lbeh mbeh : PerformanceEvent → String → SendResult) (ch : Channel),
        ch ∈ invokedChannels (channelsOf (Config.validate raw) lbeh mbeh) →
          ch.name ≠ "mattermost" := by
  have hv : (Config.validate raw).enable_mattermost = false := by
    rcases hmiss with h | h | h <;>
      simp [Config.validate, validateThresholdStep_eq, validateWindowStep_eq,
        validateOverheadStep_eq, validateRetriesStep_eq, validateOutputDirStep_eq,
        validateMattermostStep_eq, validateLogLevelStep_eq, ensureNotificationStep_eq,
        hmm, h]
  refine ⟨hv, ?_⟩
  intro lbeh mbeh ch hch
  simp only [invokedChannels, channelsOf, localFileChannel, mattermostChannel,
    List.mem_filter, List.mem_cons, List.not_mem_nil, or_false] at hch
  rcases hch with ⟨hmem, hen⟩
  rcases hmem with rfl | rfl
  · simp
  · exfalso
    simp only [] at hen
    rw [hv] at hen
    exact Bool.false_ne_true hen

/-- Witness for C9: the concrete configuration enabling Mattermost with an
empty token is force-disabled by validation. -/
theorem incomplete_mattermost_force_disabled_witness :
    cfgMMIncomplete.enable_mattermost = true ∧
      (Config.validate cfgMMIncomplete).enable_mattermost = false :=
  ⟨rfl,
    (incomplete_mattermost_force_disabled cfgMMIncomplete rfl
      (Or.inr (Or.inl rfl))).1⟩

/-- Counterexample for C8: a directly constructed `Config` with a
malformed threshold (`-1`) and window (`-5`) does not raise any
`ConfigurationError` — construction succeeds and the malformed values are
silently replaced by the defaults `1.0` and `10` (config.py lines 146-158;
pinned by the repository's tests `test_validate_invalid_threshold` and
`test_validate_invalid_window_days`). -/
theorem malformed_config_not_rejected_counterexample :
    exceptOk (mkConfigE cfgBadNums) = true ∧
      (Config.validate cfgBadNums).threshold_seconds = 1 ∧
      (Config.validate cfgBadNums).alert_window_days = 10 := by
  have h1 : ¬ (0:ℚ) < -1 := by norm_num
  have h2 : ¬ (0:ℤ) < -5 := by norm_num
  refine ⟨rfl, ?_, ?_⟩ <;>
    simp [cfgBadNums, defaultConfig, Config.validate, validateThresholdStep_eq,
      validateWindowStep_eq, validateOverheadStep_eq, validateRetriesStep_eq,
      validateOutputDirStep_eq, validateMattermostStep_eq, validateLogLevelStep_eq,
      ensureNotificationStep_eq, h1, h2]

/-- C8 (amended): only parse failures in the loaders surface a
`ConfigurationError`; malformed numeric values that reach `validate`
(direct construction) are silently replaced by the defaults — direct
construction always succeeds, a non-positive threshold becomes `1.0`, a
non-positive window becomes `10`, and `from_env` raises exactly when the
numeric environment value fails to parse. -/
theorem config_error_surfacing (raw : Config) (pf : String → Option ℚ)
    (pint : String → Option ℤ) (s ws : String) :
    exceptOk (mkConfigE raw) = true
    ∧ (raw.threshold_seconds ≤ 0 → (Config.validate raw).threshold_seconds = 1)
    ∧ (raw.alert_window_days ≤ 0 → (Config.validate raw).alert_window_days = 10)
    ∧ (pf s = none → exceptOk (from_env pf pint s ws) = false) := by
  refine ⟨rfl, ?_, ?_, ?_⟩
  · intro h
    have h' : ¬ 0 < raw.threshold_seconds := not_lt.mpr h
    simp [Config.validate, validateThresholdStep_eq, validateWindowStep_eq,
      validateOverheadStep_eq, validateRetriesStep_eq, validateOutputDirStep_eq,
      validateMattermostStep_eq, validateLogLevelStep_eq, ensureNotificationStep_eq, h']
  · intro h
    have h' : ¬ 0 < raw.alert_window_days := not_lt.mpr h
    simp [Config.validate, validateThresholdStep_eq, validateWindowStep_eq,
      validateOverheadStep_eq, validateRetriesStep_eq, validateOutputDirStep_eq,
      validateMattermostStep_eq, validateLogLevelStep_eq, ensureNotificationStep_eq, h']
  · intro h
    cases hpi : pint ws <;> simp [from_env, h, hpi, exceptOk]

/-- Witness for the amended C8: the concrete malformed configuration is
accepted with the threshold replaced by the default. -/
theorem config_error_surfacing_witness :
    cfgBadNums.threshold_seconds ≤ 0 ∧
      (Config.validate cfgBadNums).threshold_seconds = 1 :=
  ⟨by decide,
    (config_error_surfacing cfgBadNums (fun _ => none) (fun _ => none) "x" "y").2.1
      (by decide)⟩

/-! ## Claims about the event model -/

/-- C3: events with identical endpoint and identical normalized context
have identical fingerprints regardless of timestamp and duration, and the
string coercion used by fingerprinting is total — a raising conversion is
absorbed into the best-effort fallback. -/
theorem fingerprint_stability (e1 e2 : PerformanceEvent)
    (hep : e1.endpoint = e2.endpoint)
    (hctx : normalizeContext e1.context = normalizeContext e2.context) :
    e1.fingerprint = e2.fingerprint ∧
      ∀ (v : CtxValue) (tag : String), strOfCtx v = Except.error tag →
        v.coerce = "<unrepresentable:" ++ tag ++ ">" := by
  constructor
  · unfold PerformanceEvent.fingerprint fingerprintOf
    rw [hep, hctx]
  · intro v tag h
    unfold CtxValue.coerce
    rw [h]

/-- Witness for C3: two concrete events sharing endpoint and normalized
context (keys in different orders, one value malformed) but with different
durations, timestamps and statuses have the same fingerprint. -/
theorem fingerprint_stability_witness : evCtxA.fingerprint = evCtxB.fingerprint :=
  (fingerprint_stability evCtxA evCtxB rfl (by decide)).1

/-! ## Lemmas about the alert cache -/

theorem findEntry_setEntry (l : List (String × CacheEntry)) (fp : String)
    (e : CacheEntry) : findEntry (setEntry l fp e) fp = some e := by
  induction l with
  | nil => simp [setEntry, findEntry]
  | cons p rest ih =>
      obtain ⟨k, e0⟩ := p
      by_cases h : k = fp
      · simp [setEntry, findEntry, h]
      · simp [setEntry, findEntry, h, ih]

theorem should_alert_dup (w now t0 : ℚ) (fp : String) (cnt : ℕ)
    (h : now - t0 ≤ w) :
    should_alert ⟨w, [(fp, ⟨t0, cnt⟩)]⟩ fp now =
      (false, ⟨w, [(fp, ⟨t0, cnt + 1⟩)]⟩) := by
  simp [should_alert, findEntry, setEntry, h]

theorem countAlerts_dup (w t0 : ℚ) (fp : String) (ts : List ℚ) :
    ∀ cnt : ℕ, (∀ t ∈ ts, t - t0 ≤ w) →
      countAlerts ⟨w, [(fp, ⟨t0, cnt⟩)]⟩ fp ts = 0 := by
  induction ts with
  | nil => intro cnt _; rfl
  | cons t ts ih =>
      intro cnt h
      have ht : t - t0 ≤ w := h t (List.mem_cons_self t ts)
      simp [countAlerts, should_alert_dup w t t0 fp cnt ht]
      exact ih (cnt + 1) (fun t' ht' => h t' (List.mem_cons_of_mem t ht'))

/-! ## Claims about the alert cache -/

/-- C1: for a sequence of slow events sharing one fingerprint whose
timestamps all lie within one alert window of the first dispatch, exactly
one dispatch occurs; a second dispatch happens only when a timestamp
exceeds `first_alerted_at + window`; and `should_alert` returns true
(marking the fingerprint in the same operation) if and only if no live,
non-expired entry exists, otherwise returning false and incrementing the
entry's occurrence counter. -/
theorem alert_dedup_per_window (w t0 : ℚ) (fp : String) (ts : List ℚ)
    (hts : ∀ t ∈ ts, t - t0 ≤ w) :
    countAlerts ⟨w, []⟩ fp (t0 :: ts) = 1
    ∧ (∀ t : ℚ,
        (should_alert (should_alert ⟨w, []⟩ fp t0).2 fp t).1 = true ↔ t0 + w < t)
    ∧ (∀ (c : AlertCache) (now : ℚ),
        ((should_alert c fp now).1 = true ↔ hasLiveEntry c fp now = false)
        ∧ ((should_alert c fp now).1 = true →
            findEntry (should_alert c fp now).2.entries fp = some ⟨now, 1⟩)
        ∧ (∀ e : CacheEntry, findEntry c.entries fp = some e →
            now - e.first_alerted_at ≤ c.window →
              (should_alert c fp now).1 = false ∧
                findEntry (should_alert c fp now).2.entries fp =
                  some ⟨e.first_alerted_at, e.alert_count + 1⟩)) := by
  refine ⟨?_, ?_, ?_⟩
  · have h1 : should_alert ⟨w, []⟩ fp t0 = (true, ⟨w, [(fp, ⟨t0, 1⟩)]⟩) := rfl
    simp [countAlerts, h1, countAlerts_dup w t0 fp ts 1 hts]
  · intro t
    have h1 : (should_alert ⟨w, []⟩ fp t0).2 = ⟨w, [(fp, ⟨t0, 1⟩)]⟩ := rfl
    rw [h1]
    by_cases h : t - t0 ≤ w
    · simp [should_alert, findEntry, h]
      linarith
    · simp [should_alert, findEntry, h]
      linarith
  · intro c now
    refine ⟨?_, ?_, ?_⟩
    · cases hfind : findEntry c.entries fp with
      | none => simp [should_alert, hasLiveEntry, hfind]
      | some e =>
          by_cases h : now - e.first_alerted_at ≤ c.window
          · simp [should_alert, hasLiveEntry, hfind, h]
          · simp [should_alert, hasLiveEntry, hfind, h]
    · cases hfind : findEntry c.entries fp with
      | none => intro _; simp [should_alert, hfind, findEntry_setEntry]
      | some e =>
          by_cases h : now - e.first_alerted_at ≤ c.window
          · simp [should_alert, hfind, h]
          · intro _; simp [should_alert, hfind, h, findEntry_setEntry]
    · intro e hfind hlive
      constructor
      · simp [should_alert, hfind, hlive]
      · simp [should_alert, hfind, hlive, findEntry_setEntry]

/-- Witness for C1: with window 1, a first event at time 0 and repeats at
times 0.5 and 1 (both within the window), exactly one dispatch occurs. -/
theorem alert_dedup_per_window_witness :
    countAlerts ⟨1, []⟩ "fp" [0, 1/2, 1] = 1 :=
  (alert_dedup_per_window 1 0 "fp" [1/2, 1]
    (by intro t ht; fin_cases ht <;> norm_num)).1

/-! ## Claims about the notification channels -/

/-- C6: a channel's boundary converts every internal failure into a
`false` outcome with a recorded error detail and passes normal boolean
results through, so `send` always returns a boolean; and a channel whose
`is_enabled` flag is false is never among the invoked channels of a
fan-out. -/
theorem channel_send_never_raises (c : Channel) (cs : List Channel)
    (e : PerformanceEvent) (body : String) :
    (∀ m : String, c.send0 e body = SendResult.exn m →
        c.send e body = (false, some m))
    ∧ (∀ b : Bool, c.send0 e body = SendResult.ok b → c.send e body = (b, none))
    ∧ (c.enabled = false → c ∉ invokedChannels cs) := by
  refine ⟨?_, ?_, ?_⟩
  · intro m h
    simp [Channel.send, h]
  · intro b h
    simp [Channel.send, h]
  · intro hdis hmem
    have hen := (List.mem_filter.mp hmem).2
    rw [hdis] at hen
    exact Bool.false_ne_true hen

/-- Witness for C6: a channel whose internal send raises an I/O error
returns `(false, some "io-error")` through the boundary. -/
theorem channel_send_never_raises_witness :
    raisingChannel.send evSlow "report" = (false, some "io-error") :=
  (channel_send_never_raises raisingChannel [] evSlow "report").1 "io-error" rfl

/-- C5: during fan-out, if enabled channel A's send raises or returns
false, enabled channel B still receives its send invocation and B's own
result is recorded independently in the notification-status mapping. -/
theorem channel_isolation (cs : List Channel) (A B : Channel)
    (e : PerformanceEvent) (body : String)
    (hA : A ∈ cs) (hAen : A.enabled = true)
    (hAfail : (A.send e body).1 = false ∨ ∃ m, A.send0 e body = SendResult.exn m)
    (hB : B ∈ cs) (hBen : B.enabled = true) :
    (B.name, B.send e body) ∈ fanOut cs e body := by
  unfold fanOut invokedChannels
  exact List.mem_map.mpr ⟨B, List.mem_filter.mpr ⟨hB, hBen⟩, rfl⟩

/-- Witness for C5: with a raising channel first in the list, the
succeeding channel's own outcome still appears in the fan-out status. -/
theorem channel_isolation_witness :
    ("local_file", okChannel.send evSlow "report") ∈
      fanOut [raisingChannel, okChannel] evSlow "report" :=
  channel_isolation [raisingChannel, okChannel] raisingChannel okChannel evSlow
    "report" (by simp) rfl (Or.inl rfl) (by simp) rfl

/-! ## Lemmas about the monitor facade -/

theorem recordX_total (m : Monitor) (e : PerformanceEvent) :
    (recordX m e).2.stats.total_requests = m.stats.total_requests + 1 := by
  unfold recordX
  by_cases hs : m.threshold < e.duration_seconds
  · rw [if_pos hs]
    rcases hma : maybe_alertX { m with stats := m.stats.incTotal.incSlow } e with
      ⟨r, cache'⟩
    cases r with
    | error err => simp [hma, Stats.incTotal, Stats.incSlow]
    | ok disp =>
        cases disp <;>
          simp [hma, Stats.incTotal, Stats.incSlow, Stats.incAlerts]
  · rw [if_neg hs]
    simp [Stats.incTotal]

theorem record_increments_total (m : Monitor) (e : PerformanceEvent)
    (hen : m.enabled = true) :
    (m.record e).stats.total_requests = m.stats.total_requests + 1 := by
  unfold Monitor.record
  rw [if_pos hen]
  exact recordX_total m e

/-! ## Claims about the monitor facade -/

/-- C7: while the monitor is DISABLED, `record` is a no-op leaving the
whole monitor state (all counters included) unchanged; after
`enable_monitoring` the state is ENABLED and subsequent `record` calls
resume incrementing the counters. -/
theorem enablement_gating (m : Monitor) (e e' : PerformanceEvent)
    (hdis : m.enabled = false) :
    m.record e = m
    ∧ (enable_monitoring m).enabled = true
    ∧ ((enable_monitoring m).record e').stats.total_requests =
        m.stats.total_requests + 1 := by
  refine ⟨?_, rfl, ?_⟩
  · simp [Monitor.record, hdis]
  · simpa [enable_monitoring] using
      record_increments_total (enable_monitoring m) e' rfl

/-- Witness for C7: the concrete disabled monitor is left untouched by a
`record` call. -/
theorem enablement_gating_witness :
    (disable_monitoring mon0).record evSlow = disable_monitoring mon0 :=
  (enablement_gating (disable_monitoring mon0) evSlow evSlow rfl).1

/-- C4: `record` never propagates an exception to its caller — every
internal error is swallowed at the facade boundary and `total_requests`
is still incremented for every event, with no assumption on the renderer
or the channels; and a wrapped unit of work called through the monitored
wrapper yields exactly its own result (the same exception, untouched)
while `total_requests` increments by 1. -/
theorem zero_intrusion {ε α : Type} (m : Monitor) (f : Unit → Except ε α)
    (endpoint : String) (ctx : List (String × CtxValue)) (dur ts : ℚ)
    (hen : m.enabled = true) :
    (monitoredCall m f endpoint ctx dur ts).1 = f ()
    ∧ (monitoredCall m f endpoint ctx dur ts).2.stats.total_requests =
        m.stats.total_requests + 1
    ∧ ∀ e : PerformanceEvent,
        (m.record e).stats.total_requests = m.stats.total_requests + 1 := by
  refine ⟨rfl, ?_, ?_⟩
  · exact record_increments_total m _ hen
  · intro e
    exact record_increments_total m e hen

/-- Witness for C4: a wrapped function that raises is seen by the caller
as exactly that exception. -/
theorem zero_intrusion_witness :
    (monitoredCall mon0 (fun _ => (Except.error "boom" : Except String ℕ))
        "/x" [] (1/5) 0).1 = Except.error "boom" :=
  (zero_intrusion mon0 (fun _ => (Except.error "boom" : Except String ℕ))
    "/x" [] (1/5) 0 rfl).1

/-! ## Lemmas for the concurrency claim -/

theorem should_alert_of_none (c : AlertCache) (fp : String) (t : ℚ)
    (hc : findEntry c.entries fp = none) :
    should_alert c fp t =
      (true, { c with entries := setEntry c.entries fp ⟨t, 1⟩ }) := by
  unfold should_alert
  rw [hc]

theorem should_alert_of_entries (c : AlertCache) (fp : String) (t0 t : ℚ)
    (cnt : ℕ) (hc : c.entries = [(fp, ⟨t0, cnt⟩)])
    (hlive : t - t0 ≤ c.window) :
    should_alert c fp t = (false, { c with entries := [(fp, ⟨t0, cnt + 1⟩)] }) := by
  unfold should_alert
  rw [hc]
  simp [findEntry, setEntry, hlive]

theorem should_alert_window_eq (c : AlertCache) (fp : String) (now : ℚ) :
    (should_alert c fp now).2.window = c.window := by
  unfold should_alert
  cases hf : findEntry c.entries fp with
  | none => rfl
  | some e =>
      by_cases h : now - e.first_alerted_at ≤ c.window
      · simp [h]
      · simp [h]

theorem should_alert_true_marks (c : AlertCache) (fp : String) (now : ℚ)
    (h : (should_alert c fp now).1 = true) :
    findEntry (should_alert c fp now).2.entries fp = some ⟨now, 1⟩ := by
  unfold should_alert at h ⊢
  cases hf : findEntry c.entries fp with
  | none => simp [hf, findEntry_setEntry]
  | some e =>
      by_cases hl : now - e.first_alerted_at ≤ c.window
      · rw [hf] at h
        simp [hl] at h
      · simp [hf, hl, findEntry_setEntry]

theorem should_alert_race (c : AlertCache) (fp : String) (now now' : ℚ)
    (h1 : (should_alert c fp now).1 = true) (h2 : now' - now ≤ c.window) :
    (should_alert (should_alert c fp now).2 fp now').1 = false := by
  have hm := should_alert_true_marks c fp now h1
  have hw := should_alert_window_eq c fp now
  generalize hg : (should_alert c fp now).2 = c' at hm hw
  unfold should_alert
  rw [hm]
  have hlive : now' - (⟨now, 1⟩ : CacheEntry).first_alerted_at ≤ c'.window := by
    rw [hw]
    simpa using h2
  simp [hlive]

theorem maybe_alertX_dup (m : Monitor) (e : PerformanceEvent) (t0 : ℚ) (cnt : ℕ)
    (hc : m.cache.entries = [(e.fingerprint, ⟨t0, cnt⟩)])
    (hlive : e.timestamp - t0 ≤ m.cache.window) :
    maybe_alertX m e =
      (Except.ok false,
        { m.cache with entries := [(e.fingerprint, ⟨t0, cnt + 1⟩)] }) := by
  unfold maybe_alertX
  rw [should_alert_of_entries m.cache e.fingerprint t0 e.timestamp cnt hc hlive]

theorem maybe_alertX_novel (m : Monitor) (e : PerformanceEvent) (body : String)
    (hnone : findEntry m.cache.entries e.fingerprint = none)
    (hrender : m.render e = Except.ok body)
    (hsend : (fanOut m.channels e body).any (fun p => p.2.1) = true) :
    maybe_alertX m e =
      (Except.ok true,
        { m.cache with
            entries := setEntry m.cache.entries e.fingerprint ⟨e.timestamp, 1⟩ }) := by
  unfold maybe_alertX
  rw [should_alert_of_none m.cache e.fingerprint e.timestamp hnone]
  simp [hrender, hsend]

theorem record_dup (m : Monitor) (ep : String) (ctx : List (String × CtxValue))
    (dur t t0 : ℚ) (cnt : ℕ) (hen : m.enabled = true)
    (hc : m.cache.entries = [(fingerprintOf ep ctx, ⟨t0, cnt⟩)])
    (hlive : t - t0 ≤ m.cache.window) (hdur : m.threshold < dur) :
    m.record (mkEvent ep ctx dur t none) =
      { m with
          stats := m.stats.incTotal.incSlow
          cache :=
            { m.cache with entries := [(fingerprintOf ep ctx, ⟨t0, cnt + 1⟩)] } } := by
  unfold Monitor.record
  rw [if_pos hen]
  unfold recordX
  have hdur' : m.threshold < (mkEvent ep ctx dur t none).duration_seconds := hdur
  rw [if_pos hdur']
  have hma := maybe_alertX_dup { m with stats := m.stats.incTotal.incSlow }
    (mkEvent ep ctx dur t none) t0 cnt hc hlive
  rw [hma]
  simp [PerformanceEvent.fingerprint, mkEvent]

theorem record_novel (m : Monitor) (ep : String) (ctx : List (String × CtxValue))
    (dur t0 : ℚ) (body : String) (hen : m.enabled = true)
    (hnone : findEntry m.cache.entries (fingerprintOf ep ctx) = none)
    (hdur : m.threshold < dur)
    (hrender : m.render (mkEvent ep ctx dur t0 none) = Except.ok body)
    (hsend : (fanOut m.channels (mkEvent ep ctx dur t0 none) body).any
        (fun p => p.2.1) = true) :
    m.record (mkEvent ep ctx dur t0 none) =
      { m with
          stats := m.stats.incTotal.incSlow.incAlerts
          cache :=
            { m.cache with
                entries := setEntry m.cache.entries (fingerprintOf ep ctx) ⟨t0, 1⟩ } } := by
  unfold Monitor.record
  rw [if_pos hen]
  unfold recordX
  have hdur' : m.threshold < (mkEvent ep ctx dur t0 none).duration_seconds := hdur
  rw [if_pos hdur']
  have hma := maybe_alertX_novel { m with stats := m.stats.incTotal.incSlow }
    (mkEvent ep ctx dur t0 none) body hnone hrender hsend
  rw [hma]
  simp [PerformanceEvent.fingerprint, mkEvent]

theorem runRecords_dup (ep : String) (ctx : List (String × CtxValue))
    (dur t0 : ℚ) (ts : List ℚ) :
    ∀ (m : Monitor) (cnt : ℕ), m.enabled = true →
      m.cache.entries = [(fingerprintOf ep ctx, ⟨t0, cnt⟩)] →
      (∀ t ∈ ts, t - t0 ≤ m.cache.window) →
      m.threshold < dur →
      runRecords m (ts.map (fun t => mkEvent ep ctx dur t none)) =
        { m with
            stats :=
              { total_requests := m.stats.total_requests + ts.length
                slow_requests := m.stats.slow_requests + ts.length
                alerts_sent := m.stats.alerts_sent }
            cache :=
              { m.cache with
                  entries := [(fingerprintOf ep ctx, ⟨t0, cnt + ts.length⟩)] } } := by
  induction ts with
  | nil =>
      intro m cnt _ hc _ _
      cases m with
      | mk th ca chs rend st en =>
          cases st
          cases ca
          simp_all [runRecords]
  | cons t ts ih =>
      intro m cnt hen hc hts hdur
      have hstep := record_dup m ep ctx dur t t0 cnt hen hc
        (hts t (List.mem_cons_self t ts)) hdur
      have hfold :
          runRecords m ((t :: ts).map (fun t' => mkEvent ep ctx dur t' none)) =
            runRecords (m.record (mkEvent ep ctx dur t none))
              (ts.map (fun t' => mkEvent ep ctx dur t' none)) := rfl
      rw [hfold, hstep]
      have ihx := ih
        { m with
            stats := m.stats.incTotal.incSlow
            cache :=
              { m.cache with
                  entries := [(fingerprintOf ep ctx, ⟨t0, cnt + 1⟩)] } }
        (cnt + 1) hen rfl (fun t' ht' => hts t' (List.mem_cons_of_mem t ht')) hdur
      rw [ihx]
      simp only [Monitor.mk.injEq, Stats.mk.injEq, AlertCache.mk.injEq,
        List.cons.injEq, Prod.mk.injEq, CacheEntry.mk.injEq, List.length_cons,
        Stats.incTotal, Stats.incSlow, and_true, true_and]
      omega

/-! ## Claim about concurrency -/

/-- C2: the cache's check-existence-and-insert is one indivisible
operation — modelled by linearizing concurrent callers into an arbitrary
sequential order, so the theorem quantifies over every ordering of the
M event timestamps.  M ≥ 1 same-fingerprint slow events, pairwise within
one alert window, produce exactly one successful dispatch
(`alerts_sent` + 1) and exactly M `slow_requests` increments; and two
linearized check-and-set calls for the same fingerprint within one window
can never both alert (the first call's insert is visible to the second). -/
theorem concurrent_dedup (m : Monitor) (ep : String)
    (ctx : List (String × CtxValue)) (dur t0 : ℚ) (ts : List ℚ) (body : String)
    (hen : m.enabled = true)
    (hempty : m.cache.entries = [])
    (hdur : m.threshold < dur)
    (hpair : ∀ t ∈ t0 :: ts, ∀ t' ∈ t0 :: ts, t - t' ≤ m.cache.window)
    (hrender : m.render (mkEvent ep ctx dur t0 none) = Except.ok body)
    (hsend : (fanOut m.channels (mkEvent ep ctx dur t0 none) body).any
        (fun p => p.2.1) = true) :
    (runRecords m ((t0 :: ts).map (fun t => mkEvent ep ctx dur t none))).stats =
      { total_requests := m.stats.total_requests + (t0 :: ts).length
        slow_requests := m.stats.slow_requests + (t0 :: ts).length
        alerts_sent := m.stats.alerts_sent + 1 }
    ∧ ∀ (c : AlertCache) (fp : String) (now now' : ℚ),
        (should_alert c fp now).1 = true → now' - now ≤ c.window →
          (should_alert (should_alert c fp now).2 fp now').1 = false := by
  refine ⟨?_, fun c fp now now' h1 h2 => should_alert_race c fp now now' h1 h2⟩
  have hnone : findEntry m.cache.entries (fingerprintOf ep ctx) = none := by
    rw [hempty]
    rfl
  have h1 := record_novel m ep ctx dur t0 body hen hnone hdur hrender hsend
  rw [hempty] at h1
  simp only [setEntry] at h1
  have hfold :
      runRecords m ((t0 :: ts).map (fun t => mkEvent ep ctx dur t none)) =
        runRecords (m.record (mkEvent ep ctx dur t0 none))
          (ts.map (fun t => mkEvent ep ctx dur t none)) := rfl
  rw [hfold, h1]
  have hts' : ∀ t ∈ ts, t - t0 ≤ m.cache.window := fun t ht =>
    hpair t (List.mem_cons_of_mem t0 ht) t0 (List.mem_cons_self t0 ts)
  have ihx := runRecords_dup ep ctx dur t0 ts
    { m with
        stats := m.stats.incTotal.incSlow.incAlerts
        cache := { m.cache with entries := [(fingerprintOf ep ctx, ⟨t0, 1⟩)] } }
    1 hen rfl hts' hdur
  rw [ihx]
  simp only [List.length_cons]
  simp [Stats.incTotal, Stats.incSlow, Stats.incAlerts, Stats.mk.injEq]
  omega

/-- Witness for C2: two linearized callers at times 0 and 0.02 with the
same fingerprint and over-threshold duration yield statistics
`total_requests = 2, slow_requests = 2, alerts_sent = 1`. -/
theorem concurrent_dedup_witness :
    (runRecords mon0
        (([0, 1/50] : List ℚ).map (fun t => mkEvent "/x" [] (1/5) t none))).stats =
      { total_requests := 0 + 2, slow_requests := 0 + 2, alerts_sent := 0 + 1 } :=
  (concurrent_dedup mon0 "/x" [] (1/5) 0 [1/50] "report" rfl rfl
    (by norm_num [mon0])
    (by intro t ht t' ht'; fin_cases ht <;> fin_cases ht' <;> norm_num [mon0])
    rfl rfl).1

end PerMonitor
